/-
Verification of the Smart-Bank-Recommender backend boundary layer.

The TypeScript sources under src/backend and the controller/client files are
shallowly embedded below: JSON values become an inductive `Json`, request
handlers become pure functions from their inputs (request body, the outcome of
the HTTP call to the ML service, the in-memory store) to an `HttpResponse`
and, where the handler mutates a store, an updated store.  JSON numbers are
modelled as `Rat`.  The Python ML service itself is not part of the sources;
where a claim depends on it, the relevant piece is modelled from the
specification and marked as such in its doc comment.
-/
import Mathlib

/-- JSON values as exchanged on the HTTP boundary.  Numbers are rationals. -/
inductive Json where
  | num (q : Rat)
  | str (s : String)
  | bool (b : Bool)
  | null
  | arr (xs : List Json)
  | obj (fields : List (String × Json))

/-- A JSON object body: an association list of fields. -/
abbrev JsonObj := List (String × Json)

/-- Field access on a JSON value: lookup in an object, `none` otherwise. -/
def jget (j : Json) (k : String) : Option Json :=
  match j with
  | .obj o => o.lookup k
  | _ => none

/-- HTTP status codes, from src/backend/src/utils/constants.ts. -/
def HTTP_STATUS.OK : Nat := 200

def HTTP_STATUS.CREATED : Nat := 201

def HTTP_STATUS.BAD_REQUEST : Nat := 400

def HTTP_STATUS.NOT_FOUND : Nat := 404

def HTTP_STATUS.INTERNAL_SERVER_ERROR : Nat := 500

def HTTP_STATUS.BAD_GATEWAY : Nat := 502

def HTTP_STATUS.SERVICE_UNAVAILABLE : Nat := 503

/-- Error messages, from src/backend/src/utils/constants.ts. -/
def ERROR_MESSAGES.VALIDATION_ERROR : String := "Validation error"

def ERROR_MESSAGES.ML_SERVICE_ERROR : String := "ML service communication error"

def ERROR_MESSAGES.INTERNAL_ERROR : String := "Internal server error"

/-- An HTTP response: a status code and a JSON body. -/
structure HttpResponse where
  status : Nat
  body : Json

/-- Outcome of one axios HTTP call, as observed by the calling code: either the
request resolved with a status and a parsed body, or it was rejected with an
axios error (carrying the response status when one was received), or it was
rejected with a non-axios error. -/
inductive AxiosOutcome (α : Type) where
  | ok (status : Nat) (data : α)
  | axiosErr (msg : String) (respStatus : Option Nat)
  | otherErr (msg : String)

/-- The four product categories served by the recommender. -/
structure CategoryMap (α : Type) where
  account : α
  savings : α
  loan : α
  digital_service : α

/-- Modelled from the spec: the body of a successful ML-service `/predict`
response.  The endpoint implementation (Python ml-service) is not among the
sources; the spec (section 6, Response boundary) and the ml-service README
document the shape: cluster id, financial_health_score, a recommended label
per category and a confidence per category. -/
structure RecommendationResult where
  cluster : Nat
  financial_health_score : Rat
  recommendations : CategoryMap String
  confidence_scores : CategoryMap Rat

/-- Serialization of a category map into a JSON object. -/
def categoryMapToJson (f : α → Json) (m : CategoryMap α) : Json :=
  .obj [("account", f m.account), ("savings", f m.savings),
        ("loan", f m.loan), ("digital_service", f m.digital_service)]

/-- Serialization of a recommendation result into the JSON object the
ML service sends and the backend forwards. -/
def resultToJson (r : RecommendationResult) : Json :=
  .obj [("cluster", .num (r.cluster : Rat)),
        ("financial_health_score", .num r.financial_health_score),
        ("recommendations", categoryMapToJson Json.str r.recommendations),
        ("confidence_scores", categoryMapToJson Json.num r.confidence_scores)]

/-- MLServiceClient.predict (src/unnamed/part_002, lines 22-48): on a resolved
call the response body is returned unchanged; on an axios error it throws
an Error with the axios message appended to a fixed prefix; on any other
error it throws a fixed Error.  Throwing is modelled as `Except.error`. -/
def MLServiceClient.predict (out : AxiosOutcome RecommendationResult) :
    Except String RecommendationResult :=
  match out with
  | .ok _ data => .ok data
  | .axiosErr msg _ => .error ("ML Service error: " ++ msg)
  | .otherErr _ => .error "Unexpected error communicating with ML Service"

/-- MLServiceClient.healthCheck (src/unnamed/part_002, lines 50-58): returns
whether the resolved response has status 200, and false when the call
rejects for any reason. -/
def MLServiceClient.healthCheck (out : AxiosOutcome Json) : Bool :=
  match out with
  | .ok status _ => status == 200
  | .axiosErr _ _ => false
  | .otherErr _ => false

/-- The UserProfile object literal built by getRecommendation
(src/backend/src/controllers/recommendation.controller.ts, lines 13-18):
exactly the four fields income, spending_score, saving_frequency and
loan_behavior are copied out of the request body. -/
def buildProfile (body : JsonObj) : JsonObj :=
  [("income", (body.lookup "income").getD .null),
   ("spending_score", (body.lookup "spending_score").getD .null),
   ("saving_frequency", (body.lookup "saving_frequency").getD .null),
   ("loan_behavior", (body.lookup "loan_behavior").getD .null)]

/-- getRecommendation (recommendation.controller.ts, lines 22-45), as a
function of the outcome of mlService.predict: on success it responds 200
with the recommendation as `data`; on any thrown Error it responds
502 BAD_GATEWAY with the fixed ML_SERVICE_ERROR message and the error text. -/
def getRecommendation (ml : Except String RecommendationResult) : HttpResponse :=
  match ml with
  | .ok r =>
      { status := HTTP_STATUS.OK,
        body := .obj [("success", .bool true), ("data", resultToJson r)] }
  | .error msg =>
      { status := HTTP_STATUS.BAD_GATEWAY,
        body := .obj [("success", .bool false),
                      ("message", .str ERROR_MESSAGES.ML_SERVICE_ERROR),
                      ("error", .str msg)] }

/-- Boolean range check used by the isFloat validators: a lower bound and an
optional upper bound. -/
def inRange (q lo : Rat) (hi : Option Rat) : Bool :=
  decide (lo ≤ q) && (match hi with | some h => decide (q ≤ h) | none => true)

/-- Numeric value of a list of decimal digit characters. -/
def digitsVal (cs : List Char) : Nat :=
  cs.foldl (fun a c => a * 10 + (c.toNat - 48)) 0

/-- Unsigned part of the validator.js numeric syntax: a possibly empty run of
digits followed either by the end of the string (the run must then be
nonempty) or by a decimal point and a nonempty run of digits; anything else
is not numeric.  Returns the exact rational value of the literal. -/
def parseUnsigned (cs : List Char) : Option Rat :=
  match cs.drop (cs.takeWhile Char.isDigit).length with
  | [] =>
      if (cs.takeWhile Char.isDigit).isEmpty then none
      else some ((digitsVal (cs.takeWhile Char.isDigit) : Rat))
  | '.' :: frac =>
      if !frac.isEmpty && frac.all Char.isDigit then
        some (mkRat (digitsVal (cs.takeWhile Char.isDigit ++ frac) : Int)
          (10 ^ frac.length))
      else none
  | _ => none

/-- The validator.js numeric-string syntax, the default isNumeric pattern: an
optional sign, then digits with an optional decimal point.  Every string of
this syntax also satisfies the isFloat pattern with the same parsed value,
so the acceptance of the whole exists/isNumeric/isFloat chain is governed by
this syntax together with the bounds. -/
def parseNumericString (s : String) : Option Rat :=
  match s.data with
  | '+' :: rest => parseUnsigned rest
  | '-' :: rest => (parseUnsigned rest).map (fun q => -q)
  | cs => parseUnsigned cs

/-- Numeric value a scalar JSON value exposes after the coercion: a number is
its own value, a string is parsed with the numeric-string syntax, and
booleans, null, containers stringify to non-numeric text. -/
def scalarNumericValue (j : Json) : Option Rat :=
  match j with
  | .num q => some q
  | .str s => parseNumericString s
  | _ => none

/-- Express-validator coerces each field value to a string before running the
validator.js checks, so numeric strings — and the string values an
express.urlencoded body (enabled in app.ts) delivers — pass isNumeric and
isFloat.  The coercion reduces an array of length at least one to its first
element, one level, which covers repeated urlencoded parameters; deeper
nestings are treated as non-numeric. -/
def numericValue (j : Json) : Option Rat :=
  match j with
  | .arr (x :: _) => scalarNumericValue x
  | _ => scalarNumericValue j

/-- The error messages one express-validator chain of exists, isNumeric and
isFloat with bounds produces on a body field (profile.validator.ts): a
missing field fails all three validators, a value with no numeric value
under the string coercion fails the numeric and range validators, and a
numeric value out of range fails the range validator. -/
def ruleErrors (body : JsonObj) (field reqMsg numMsg rangeMsg : String)
    (lo : Rat) (hi : Option Rat) : List String :=
  match body.lookup field with
  | none => [reqMsg, numMsg, rangeMsg]
  | some j =>
      match numericValue j with
      | some q => if inRange q lo hi then [] else [rangeMsg]
      | none => [numMsg, rangeMsg]

/-- profileValidationRules (src/backend/src/validators/profile.validator.ts,
lines 3-35): the four rules for income, spending_score, saving_frequency and
loan_behavior, with their documented bounds and messages. -/
def profileValidationErrors (body : JsonObj) : List String :=
  ruleErrors body "income" "Income is required" "Income must be a number"
    "Income must be non-negative" 0 none
  ++ ruleErrors body "spending_score" "Spending score is required"
    "Spending score must be a number" "Spending score must be between 0 and 100"
    0 (some 100)
  ++ ruleErrors body "saving_frequency" "Saving frequency is required"
    "Saving frequency must be a number"
    "Saving frequency must be between 0 and 10" 0 (some 10)
  ++ ruleErrors body "loan_behavior" "Loan behavior is required"
    "Loan behavior must be a number" "Loan behavior must be between 0 and 5"
    0 (some 5)

/-- A request body passes validation when the rule list produces no errors. -/
def profileValidationAccepts (body : JsonObj) : Bool :=
  (profileValidationErrors body).isEmpty

/-- Outcome of an express middleware: either pass control on, or answer the
request itself. -/
inductive MiddlewareOutcome where
  | next
  | respond (resp : HttpResponse)

/-- validate (src/unnamed/part_003, the validation middleware): calls next()
when the validation result is empty, otherwise responds 400 BAD_REQUEST with
the validation errors and never calls next(). -/
def validate (errors : List String) : MiddlewareOutcome :=
  if errors.isEmpty then .next
  else .respond
    { status := HTTP_STATUS.BAD_REQUEST,
      body := .obj [("success", .bool false),
                    ("message", .str ERROR_MESSAGES.VALIDATION_ERROR),
                    ("errors", .arr (errors.map Json.str))] }

/-- Result of running the POST /api/recommend route: the response sent, and
whether the ML-service prediction was requested along the way. -/
structure RouteResult where
  response : HttpResponse
  mlCalled : Bool

/-- The POST /api/recommend route (recommendation.routes.ts, line 9): the
validation middleware runs first; only when it calls next() does
getRecommendation run and call mlService.predict. -/
def handleRecommend (body : JsonObj) (ml : AxiosOutcome RecommendationResult) :
    RouteResult :=
  match validate (profileValidationErrors body) with
  | .next =>
      { response := getRecommendation (MLServiceClient.predict ml),
        mlCalled := true }
  | .respond r => { response := r, mlCalled := false }

/-- Modelled from the spec: the ML service health endpoint body.  The endpoint
implementation (Python ml-service) is not among the sources; the spec
(section 6, Readiness signal) requires the serving process to expose whether
a ModelBundle is currently loaded, and the ml-service README documents the
body as status, service name and a models_loaded flag. -/
def mlHealthBody (models_loaded : Bool) : Json :=
  .obj [("status", .str "ok"), ("service", .str "ml-service"),
        ("models_loaded", .bool models_loaded)]

/-- JavaScript parseInt with radix 10 on the fragment the handlers feed it:
leading spaces are skipped, an optional sign is read, then the maximal run
of leading decimal digits; an empty run yields NaN, modelled as `none`. -/
def jsParseInt (s : String) : Option Int :=
  match s.data.dropWhile (fun c => c = ' ') with
  | '-' :: rest =>
      if (rest.takeWhile Char.isDigit).isEmpty then none
      else some (-(digitsVal (rest.takeWhile Char.isDigit) : Int))
  | '+' :: rest =>
      if (rest.takeWhile Char.isDigit).isEmpty then none
      else some ((digitsVal (rest.takeWhile Char.isDigit) : Int))
  | cs =>
      if (cs.takeWhile Char.isDigit).isEmpty then none
      else some ((digitsVal (cs.takeWhile Char.isDigit) : Int))

/-- One stored usage-log entry (src/unnamed/part_001, lines 89-111): the
logged fields plus the entry id and timestamp added at insertion. -/
structure UsageLogEntry where
  id : Nat
  user_id : Int
  action : String
  timestamp : String
deriving DecidableEq

/-- The list selected by getUsageLogs (src/unnamed/part_001, lines 125-145):
the user_id query parameter, when present and truthy as a string, is parsed
with parseInt; when the parsed value is a truthy number (neither 0 nor NaN)
the log list is filtered by strict equality on user_id, otherwise the whole
list is returned.  The store list is in insertion order. -/
def selectUsageLogs (store : List UsageLogEntry) (q : Option String) :
    List UsageLogEntry :=
  match (match q with
         | some s => if s = "" then none else jsParseInt s
         | none => none) with
  | some n => if n ≠ 0 then store.filter (fun log => log.user_id == n) else store
  | none => store

/-- One stored profile (src/unnamed/part_001, lines 17-31): the four
UserProfile fields plus the id and the two timestamps added at creation. -/
structure StoredProfile where
  id : Int
  income : Rat
  spending_score : Rat
  saving_frequency : Rat
  loan_behavior : Rat
  created_at : String
  updated_at : String
deriving DecidableEq

/-- The module-level state of the profile controller (src/unnamed/part_001,
lines 8-9): the profiles Map, in insertion order, and the nextId counter. -/
structure ProfileStore where
  nextId : Int
  profiles : List (Int × StoredProfile)
deriving DecidableEq

/-- The initial profile-controller state: empty Map, nextId = 1. -/
def initialProfileStore : ProfileStore := { nextId := 1, profiles := [] }

/-- JavaScript Map.set on the insertion-ordered association list: replace in
place when the key exists, append otherwise. -/
def mapSet (m : List (Int × StoredProfile)) (k : Int) (v : StoredProfile) :
    List (Int × StoredProfile) :=
  match m with
  | [] => [(k, v)]
  | (k0, v0) :: rest =>
      if k0 = k then (k, v) :: rest else (k0, v0) :: mapSet rest k v

/-- createProfile (src/unnamed/part_001, lines 11-45): reads the four profile
fields from the body, takes id = nextId and increments the counter, stamps
one timestamp into both created_at and updated_at, and stores the entry. -/
def createProfile (st : ProfileStore) (income spending_score saving_frequency
    loan_behavior : Rat) (now : String) : ProfileStore × StoredProfile :=
  let id := st.nextId
  let stored : StoredProfile :=
    { id := id, income := income, spending_score := spending_score,
      saving_frequency := saving_frequency, loan_behavior := loan_behavior,
      created_at := now, updated_at := now }
  ({ nextId := id + 1, profiles := mapSet st.profiles id stored }, stored)

/-- getProfile (src/unnamed/part_001, lines 47-82): parses the id path
parameter, answers 400 on NaN, 404 when the Map has no entry, 200 with the
entry otherwise.  The handler only reads the store, so it returns it
unchanged. -/
def getProfileHandler (st : ProfileStore) (idParam : String) :
    ProfileStore × Option StoredProfile × Nat :=
  match jsParseInt idParam with
  | none => (st, none, HTTP_STATUS.BAD_REQUEST)
  | some id =>
      match st.profiles.lookup id with
      | none => (st, none, HTTP_STATUS.NOT_FOUND)
      | some p => (st, some p, HTTP_STATUS.OK)

/-- The keys of the profile store, in insertion order. -/
def storeKeys (st : ProfileStore) : List Int :=
  st.profiles.map Prod.fst

/-- Invariant of the profile store: the counter is one past the number of
stored profiles, the keys are exactly 1, 2, ..., length in insertion order,
and every stored entry carries its own key as its id. -/
def ProfileStoreInv (st : ProfileStore) : Prop :=
  st.nextId = (st.profiles.length : Int) + 1 ∧
  storeKeys st = (List.range' 1 st.profiles.length).map Int.ofNat ∧
  ∀ p ∈ st.profiles, p.2.id = p.1

namespace Pipeline

/-- Modelled from the spec: the full UserProfile of the data model (section 3).
The ML service consuming it is not among the sources; the field list follows
the spec word for word. -/
structure FullProfile where
  age : Rat
  income : Rat
  credit_score : Rat
  monthly_spending : Rat
  savings_balance : Rat
  loan_amount : Rat
  digital_engagement : Rat
  spending_score : Rat
  saving_frequency : Rat
  loan_behavior : Rat
  employment_status : String
  existing_products : List String

/-- Modelled from the spec (section 4.1): norm maps a raw value into [0,1]
using fixed per-field bounds; values outside the bounds are clamped. -/
def clampNorm (x lo hi : Rat) : Rat :=
  if x ≤ lo then 0 else if hi ≤ x then 1 else (x - lo) / (hi - lo)

/-- Modelled from the spec (section 4.1 and the ml-service README): the
financial health score with weights 0.40, 0.25, 0.20, 0.15.  The per-field
min/max bounds are documented constants of the missing ml-service code;
representative fixed values are used here. -/
def financial_health_score (p : FullProfile) : Rat :=
  (40 : Rat) / 100 * clampNorm p.income 0 200000
  + (25 : Rat) / 100 * clampNorm p.credit_score 300 850
  + (20 : Rat) / 100 * clampNorm p.savings_balance 0 100000
  + (15 : Rat) / 100 * clampNorm p.monthly_spending 0 10000

/-- Income tiers (spec section 4.1). -/
inductive Tier where
  | low
  | medium
  | high

/-- Modelled from the spec (section 4.1): income tier thresholds. -/
def income_tier (p : FullProfile) : Tier :=
  if p.income < 30000 then .low
  else if p.income ≤ 70000 then .medium
  else .high

/-- Numeric encoding of a tier for the feature vector. -/
def tierVal : Tier → Rat
  | .low => 0
  | .medium => 1
  | .high => 2

/-- Modelled from the spec (section 4.1): income over spending, guarded
against division by zero with epsilon = 1. -/
def income_to_spending_ratio (p : FullProfile) : Rat :=
  p.income / max p.monthly_spending 1

/-- Modelled from the spec (section 4.1): savings minus loans, may be
negative. -/
def savings_capacity (p : FullProfile) : Rat :=
  p.savings_balance - p.loan_amount

/-- Modelled from the spec (section 4.1): loans over income, guarded against
division by zero with epsilon = 1. -/
def debt_to_income_ratio (p : FullProfile) : Rat :=
  p.loan_amount / max p.income 1

/-- Modelled from the spec (section 4.1): digital engagement rescaled. -/
def digital_adoption_score (p : FullProfile) : Rat :=
  p.digital_engagement / 10

/-- Modelled from the spec (sections 3 and 4.1): the Feature Engineer output,
a fixed-order vector of the directly used fields followed by the derived
features. -/
def deriveFeatures (p : FullProfile) : List Rat :=
  [p.age, p.income, p.credit_score, p.monthly_spending, p.savings_balance,
   p.loan_amount, p.digital_engagement, p.spending_score, p.saving_frequency,
   p.loan_behavior, financial_health_score p, income_to_spending_ratio p,
   savings_capacity p, debt_to_income_ratio p, digital_adoption_score p,
   tierVal (income_tier p)]

/-- Scaler parameters (spec section 3): per-feature mean and scale. -/
structure ScalerParams where
  mean : List Rat
  scale : List Rat

/-- Modelled from the spec (section 4.2): the apply phase of the scaler, pure
elementwise (x - mean) / scale. -/
def transform (xs : List Rat) (sp : ScalerParams) : List Rat :=
  (xs.zip (sp.mean.zip sp.scale)).map (fun t => (t.1 - t.2.1) / t.2.2)

/-- Squared Euclidean distance between two vectors. -/
def sqDist (a b : List Rat) : Rat :=
  ((a.zip b).map (fun t => (t.1 - t.2) * (t.1 - t.2))).sum

/-- Nearest-centroid scan keeping the first (lowest-index) minimum. -/
def assignAux (x : List Rat) (cs : List (List Rat)) (i bestIdx : Nat)
    (bestD : Rat) : Nat :=
  match cs with
  | [] => bestIdx
  | c :: rest =>
      if sqDist x c < bestD then assignAux x rest (i + 1) i (sqDist x c)
      else assignAux x rest (i + 1) bestIdx bestD

/-- Modelled from the spec (section 4.3): assign a scaled vector to the
nearest centroid by Euclidean distance, ties broken by lowest index. -/
def assignCluster (x : List Rat) (centroids : List (List Rat)) : Nat :=
  match centroids with
  | [] => 0
  | c :: rest => assignAux x rest 1 0 (sqDist x c)

/-- A fitted decision tree (spec section 4.4): internal nodes test one feature
against a threshold, leaves hold a class-frequency distribution over the
category labels. -/
inductive DecisionTree where
  | leaf (dist : List (String × Rat))
  | node (feature : Nat) (threshold : Rat) (l r : DecisionTree)

/-- First label of maximal probability in a leaf distribution; the strict
comparison keeps the earlier label on ties, the fixed declaration-order tie
break of the spec (section 4.4). -/
def argmaxLabel : List (String × Rat) → String × Rat
  | [] => ("", 0)
  | p :: rest => rest.foldl (fun best q => if best.2 < q.2 then q else best) p

/-- Modelled from the spec (section 4.4): tree prediction traces the single
root-to-leaf path and returns the majority label of the leaf together with
its share of the leaf distribution as confidence. -/
def treePredict (t : DecisionTree) (x : List Rat) : String × Rat :=
  match t with
  | .leaf dist => argmaxLabel dist
  | .node f th l r => if x.getD f 0 ≤ th then treePredict l x else treePredict r x

/-- Modelled from the spec (section 3): the ModelBundle, the atomic set of
fitted artifacts needed to serve one prediction. -/
structure ModelBundle where
  scaler : ScalerParams
  centroids : List (List Rat)
  account_tree : DecisionTree
  savings_tree : DecisionTree
  loan_tree : DecisionTree
  digital_tree : DecisionTree

/-- Modelled from the spec (section 4.6): the Inference Pipeline predict.
The implementation (Python ml-service predictor) is not among the sources;
the sequence follows the spec: derive the feature vector, scale it with the
bundle scaler, assign the cluster with the bundle centroids, then predict
each category from the base feature vector extended with the cluster id, and
assemble the result. -/
def predict (p : FullProfile) (b : ModelBundle) : RecommendationResult :=
  let feats := deriveFeatures p
  let scaled := transform feats b.scaler
  let cluster := assignCluster scaled b.centroids
  let xin := feats ++ [(cluster : Rat)]
  let acc := treePredict b.account_tree xin
  let sav := treePredict b.savings_tree xin
  let loan := treePredict b.loan_tree xin
  let dig := treePredict b.digital_tree xin
  { cluster := cluster,
    financial_health_score := 100 * financial_health_score p,
    recommendations :=
      { account := acc.1, savings := sav.1, loan := loan.1,
        digital_service := dig.1 },
    confidence_scores :=
      { account := acc.2, savings := sav.2, loan := loan.2,
        digital_service := dig.2 } }

end Pipeline

/-- A concrete recommendation result, the example of the ml-service README. -/
def sampleResult : RecommendationResult :=
  { cluster := 1, financial_health_score := 725 / 10,
    recommendations :=
      { account := "Basic Checking Account",
        savings := "Standard Savings Account",
        loan := "Auto Loan",
        digital_service := "Premium Digital Banking" },
    confidence_scores :=
      { account := 85 / 100, savings := 78 / 100, loan := 82 / 100,
        digital_service := 91 / 100 } }

/-- The axios outcome observed when the ML service rejects a prediction
because no model bundle is loaded: the request fails with status 503. -/
def notReadyOutcome : AxiosOutcome RecommendationResult :=
  .axiosErr "Request failed with status code 503" (some 503)

/-- A request body holding every raw field of the data model, with the values
of the ml-service README example. -/
def fullRequestBody : JsonObj :=
  [("age", .num 30), ("income", .num 75000),
   ("employment_status", .str "employed"), ("credit_score", .num 720),
   ("existing_products", .arr [.str "basic_checking"]),
   ("monthly_spending", .num 2500), ("savings_balance", .num 15000),
   ("loan_amount", .num 0), ("digital_engagement", .num 8),
   ("spending_score", .num 65), ("saving_frequency", .num 7),
   ("loan_behavior", .num 2)]

/-- A request body whose four validated fields are in range while
credit_score is far outside the documented [300, 850] interval. -/
def badCreditBody : JsonObj :=
  [("income", .num 50000), ("spending_score", .num 50),
   ("saving_frequency", .num 5), ("loan_behavior", .num 2),
   ("credit_score", .num 10000)]

/-- A request body as an express.urlencoded form delivers it: every value a
string, each in numeric syntax and in range. -/
def stringFieldsBody : JsonObj :=
  [("income", .str "50000"), ("spending_score", .str "50"),
   ("saving_frequency", .str "5"), ("loan_behavior", .str "2")]

/-- The end-to-end scenario profile of the spec (section 8). -/
def sampleProfile : Pipeline.FullProfile :=
  { age := 30, income := 75000, credit_score := 720, monthly_spending := 2500,
    savings_balance := 15000, loan_amount := 0, digital_engagement := 8,
    spending_score := 65, saving_frequency := 7, loan_behavior := 2,
    employment_status := "employed", existing_products := ["basic_checking"] }

/-- A small concrete model bundle: identity scaler over the 16 features, two
centroids, and one fitted tree per category. -/
def sampleBundle : Pipeline.ModelBundle :=
  { scaler := { mean := List.replicate 16 0, scale := List.replicate 16 1 },
    centroids := [List.replicate 16 0, List.replicate 16 10],
    account_tree :=
      .leaf [("Basic Checking Account", 7 / 10), ("Premium Checking", 3 / 10)],
    savings_tree :=
      .leaf [("Standard Savings Account", 6 / 10), ("High Yield Savings", 4 / 10)],
    loan_tree :=
      .node 1 50000 (.leaf [("Personal Loan", 1)])
        (.leaf [("Auto Loan", 8 / 10), ("Mortgage", 2 / 10)]),
    digital_tree :=
      .leaf [("Premium Digital Banking", 9 / 10), ("Basic App", 1 / 10)] }

/-- A concrete usage-log store with entries for two users. -/
def sampleUsageStore : List UsageLogEntry :=
  [{ id := 1, user_id := 1, action := "login", timestamp := "t1" },
   { id := 2, user_id := 2, action := "view_recommendation", timestamp := "t2" },
   { id := 3, user_id := 1, action := "logout", timestamp := "t3" }]

/-- C1 (counterexample).  When the ML-service call fails because no model is
loaded (the service answers 503), getRecommendation responds with
502 BAD_GATEWAY, not 503 SERVICE_UNAVAILABLE, and the message field is the
same generic ML_SERVICE_ERROR used for every ML-service failure. -/
theorem notReady_response_not_503 :
    (getRecommendation (MLServiceClient.predict notReadyOutcome)).status
      = HTTP_STATUS.BAD_GATEWAY ∧
    (getRecommendation (MLServiceClient.predict notReadyOutcome)).status
      ≠ HTTP_STATUS.SERVICE_UNAVAILABLE ∧
    jget (getRecommendation (MLServiceClient.predict notReadyOutcome)).body
      "message" = some (.str ERROR_MESSAGES.ML_SERVICE_ERROR) :=
  ⟨rfl, by decide, rfl⟩

/-- C1 (amended).  For every request whose ML-service call fails, for any
reason including the not-ready condition, getRecommendation responds with
status 502 BAD_GATEWAY and the one generic ML_SERVICE_ERROR message; the
not-ready condition is not surfaced as a distinct condition. -/
theorem ml_failure_generic_502 (msg : String) (st : Option Nat) (m2 : String) :
    (getRecommendation (MLServiceClient.predict (.axiosErr msg st))).status
      = HTTP_STATUS.BAD_GATEWAY ∧
    jget (getRecommendation (MLServiceClient.predict (.axiosErr msg st))).body
      "message" = some (.str ERROR_MESSAGES.ML_SERVICE_ERROR) ∧
    (getRecommendation (MLServiceClient.predict
      (AxiosOutcome.otherErr (α := RecommendationResult) m2))).status
      = HTTP_STATUS.BAD_GATEWAY ∧
    jget (getRecommendation (MLServiceClient.predict
      (AxiosOutcome.otherErr (α := RecommendationResult) m2))).body
      "message" = some (.str ERROR_MESSAGES.ML_SERVICE_ERROR) :=
  ⟨rfl, rfl, rfl, rfl⟩

/-- C2.  For every successful recommendation request the controller responds
200 with the recommendation result as data, unchanged; the serialized result
exposes the cluster id, the financial_health_score, the label recommended
for each of the four categories and the confidence for each of the four
categories. -/
theorem success_response_exposes_result (r : RecommendationResult) :
    (getRecommendation (.ok r)).status = HTTP_STATUS.OK ∧
    jget (getRecommendation (.ok r)).body "data" = some (resultToJson r) ∧
    jget (resultToJson r) "cluster" = some (.num (r.cluster : Rat)) ∧
    jget (resultToJson r) "financial_health_score"
      = some (.num r.financial_health_score) ∧
    jget (resultToJson r) "recommendations"
      = some (categoryMapToJson Json.str r.recommendations) ∧
    jget (resultToJson r) "confidence_scores"
      = some (categoryMapToJson Json.num r.confidence_scores) ∧
    jget (categoryMapToJson Json.str r.recommendations) "account"
      = some (.str r.recommendations.account) ∧
    jget (categoryMapToJson Json.str r.recommendations) "savings"
      = some (.str r.recommendations.savings) ∧
    jget (categoryMapToJson Json.str r.recommendations) "loan"
      = some (.str r.recommendations.loan) ∧
    jget (categoryMapToJson Json.str r.recommendations) "digital_service"
      = some (.str r.recommendations.digital_service) ∧
    jget (categoryMapToJson Json.num r.confidence_scores) "account"
      = some (.num r.confidence_scores.account) ∧
    jget (categoryMapToJson Json.num r.confidence_scores) "savings"
      = some (.num r.confidence_scores.savings) ∧
    jget (categoryMapToJson Json.num r.confidence_scores) "loan"
      = some (.num r.confidence_scores.loan) ∧
    jget (categoryMapToJson Json.num r.confidence_scores) "digital_service"
      = some (.num r.confidence_scores.digital_service) :=
  ⟨rfl, rfl, rfl, rfl, rfl, rfl, rfl, rfl, rfl, rfl, rfl, rfl, rfl, rfl⟩

/-- C3 (counterexample).  On a request body carrying every raw field of the
data model, the UserProfile object the controller builds lacks the age and
credit_score fields the claim requires. -/
theorem built_profile_lacks_age :
    fullRequestBody.lookup "age" = some (.num 30) ∧
    (buildProfile fullRequestBody).lookup "age" = none ∧
    (buildProfile fullRequestBody).lookup "credit_score" = none :=
  ⟨rfl, rfl, rfl⟩

/-- C3 (amended).  The UserProfile the controller builds from a request body
contains exactly the fields income, spending_score, saving_frequency and
loan_behavior, each copied from the request body when present. -/
theorem built_profile_exact_fields (body : JsonObj) :
    (buildProfile body).map Prod.fst
      = ["income", "spending_score", "saving_frequency", "loan_behavior"] ∧
    (∀ v, body.lookup "income" = some v →
      (buildProfile body).lookup "income" = some v) ∧
    (∀ v, body.lookup "spending_score" = some v →
      (buildProfile body).lookup "spending_score" = some v) ∧
    (∀ v, body.lookup "saving_frequency" = some v →
      (buildProfile body).lookup "saving_frequency" = some v) ∧
    (∀ v, body.lookup "loan_behavior" = some v →
      (buildProfile body).lookup "loan_behavior" = some v) := by
  refine ⟨rfl, ?_, ?_, ?_, ?_⟩ <;> intro v h <;>
    simp [buildProfile, List.lookup, h]

/-- C3 witness: the amended theorem at the concrete full request body. -/
theorem built_profile_exact_fields_witness :
    (buildProfile fullRequestBody).map Prod.fst
      = ["income", "spending_score", "saving_frequency", "loan_behavior"] ∧
    (buildProfile fullRequestBody).lookup "income" = some (.num 75000) :=
  ⟨(built_profile_exact_fields fullRequestBody).1,
   (built_profile_exact_fields fullRequestBody).2.1 (.num 75000) rfl⟩

theorem inRange_some_iff (q lo h : Rat) :
    inRange q lo (some h) = true ↔ lo ≤ q ∧ q ≤ h := by
  simp [inRange]

theorem inRange_none_iff (q lo : Rat) :
    inRange q lo none = true ↔ lo ≤ q := by
  simp [inRange]

theorem ruleErrors_nil_iff (body : JsonObj) (f m1 m2 m3 : String) (lo : Rat)
    (hi : Option Rat) :
    ruleErrors body f m1 m2 m3 lo hi = [] ↔
      ∃ j q, body.lookup f = some j ∧ numericValue j = some q ∧
        inRange q lo hi = true := by
  cases hl : body.lookup f with
  | none => simp [ruleErrors, hl]
  | some j =>
    cases hn : numericValue j with
    | none => simp [ruleErrors, hl, hn]
    | some q =>
      by_cases hr : inRange q lo hi = true <;> simp [ruleErrors, hl, hn, hr]

/-- C4 (counterexample).  Two bodies refute the claimed characterization: a
body whose credit_score is 10000 — far outside the documented [300, 850]
bounds — passes validation, because the validator has no rule for
credit_score; and a body whose four fields are numeric strings, as an
urlencoded form delivers them, passes validation although none of its
validated fields is a number. -/
theorem credit_score_not_validated :
    profileValidationAccepts badCreditBody = true ∧
    badCreditBody.lookup "credit_score" = some (.num 10000) ∧
    ¬ ((300 : Rat) ≤ 10000 ∧ (10000 : Rat) ≤ 850) ∧
    profileValidationAccepts stringFieldsBody = true ∧
    stringFieldsBody.lookup "income" = some (.str "50000") :=
  ⟨by decide, rfl, by decide, by decide, rfl⟩

/-- C4 (amended).  The request boundary validates exactly the four fields
income, spending_score, saving_frequency and loan_behavior, and accepts a
request body if and only if each of those fields carries a numeric value
under the express-validator string coercion — a JSON number, or a string in
numeric syntax — within its documented range (income nonnegative,
spending_score in [0, 100], saving_frequency in [0, 10], loan_behavior in
[0, 5]); credit_score is not validated. -/
theorem validation_accepts_iff (body : JsonObj) :
    profileValidationAccepts body = true ↔
      ((∃ j q, body.lookup "income" = some j ∧ numericValue j = some q ∧
          0 ≤ q) ∧
       (∃ j q, body.lookup "spending_score" = some j ∧
          numericValue j = some q ∧ 0 ≤ q ∧ q ≤ 100) ∧
       (∃ j q, body.lookup "saving_frequency" = some j ∧
          numericValue j = some q ∧ 0 ≤ q ∧ q ≤ 10) ∧
       (∃ j q, body.lookup "loan_behavior" = some j ∧
          numericValue j = some q ∧ 0 ≤ q ∧ q ≤ 5)) := by
  unfold profileValidationAccepts profileValidationErrors
  rw [List.isEmpty_iff, List.append_eq_nil, List.append_eq_nil,
    List.append_eq_nil, ruleErrors_nil_iff, ruleErrors_nil_iff,
    ruleErrors_nil_iff, ruleErrors_nil_iff]
  simp only [inRange_some_iff, inRange_none_iff, and_assoc]

/-- C5.  For every recommendation request whose body fails validation, the
route answers 400 BAD_REQUEST carrying the validation errors, and the
ML-service prediction is never requested: the validation middleware does not
pass control to the controller. -/
theorem invalid_request_blocks_core (body : JsonObj)
    (ml : AxiosOutcome RecommendationResult)
    (h : profileValidationErrors body ≠ []) :
    (handleRecommend body ml).mlCalled = false ∧
    (handleRecommend body ml).response.status = HTTP_STATUS.BAD_REQUEST ∧
    jget (handleRecommend body ml).response.body "errors"
      = some (.arr ((profileValidationErrors body).map Json.str)) := by
  have he : (profileValidationErrors body).isEmpty = false := by
    rw [← Bool.not_eq_true, List.isEmpty_iff]
    exact h
  refine ⟨?_, ?_, ?_⟩ <;> simp only [handleRecommend, validate, he, jget] <;> rfl

/-- C5 witness: the theorem at the empty request body, which fails every
validation rule, and a concrete ML outcome. -/
theorem invalid_request_blocks_core_witness :
    (handleRecommend [] (AxiosOutcome.otherErr "down")).mlCalled = false ∧
    (handleRecommend [] (AxiosOutcome.otherErr "down")).response.status
      = HTTP_STATUS.BAD_REQUEST ∧
    jget (handleRecommend [] (AxiosOutcome.otherErr "down")).response.body
      "errors" = some (.arr ((profileValidationErrors []).map Json.str)) :=
  invalid_request_blocks_core [] (AxiosOutcome.otherErr "down") (by decide)

/-- C6.  The health body of the model-serving process carries a
models_loaded field equal to the bundle-loaded state, so the readiness
response distinguishes the loaded state from the not-loaded state: equal
health bodies imply equal states. -/
theorem health_exposes_models_loaded :
    (∀ b : Bool, jget (mlHealthBody b) "models_loaded" = some (.bool b)) ∧
    (∀ b1 b2 : Bool, mlHealthBody b1 = mlHealthBody b2 → b1 = b2) := by
  constructor
  · intro b
    rfl
  · intro b1 b2 h
    have h1 := congrArg (fun j => jget j "models_loaded") h
    simpa [mlHealthBody, jget, List.lookup] using h1

/-- C6 witness: the theorem at the loaded state. -/
theorem health_exposes_models_loaded_witness :
    jget (mlHealthBody true) "models_loaded" = some (.bool true) ∧
    (true : Bool) = true :=
  ⟨health_exposes_models_loaded.1 true,
   health_exposes_models_loaded.2 true true rfl⟩

/-- C7.  The inference pipeline predict is a deterministic function of the
profile and the model bundle: two runs on equal inputs return identical
results. -/
theorem predict_deterministic (p1 p2 : Pipeline.FullProfile)
    (b1 b2 : Pipeline.ModelBundle) (hp : p1 = p2) (hb : b1 = b2) :
    Pipeline.predict p1 b1 = Pipeline.predict p2 b2 := by
  rw [hp, hb]

/-- C7 witness: two runs at the end-to-end scenario profile of the spec and a
concrete bundle. -/
theorem predict_deterministic_witness :
    Pipeline.predict sampleProfile sampleBundle
      = Pipeline.predict sampleProfile sampleBundle :=
  predict_deterministic sampleProfile sampleProfile sampleBundle sampleBundle
    rfl rfl

/-- C8.  getUsageLogs with a user_id query parameter parsing to a nonzero
integer n returns exactly the stored entries whose user_id equals n, in
insertion order; with the parameter absent, or parsing to 0 or NaN, it
returns the entire store unfiltered. -/
theorem getUsageLogs_filter_spec (store : List UsageLogEntry)
    (q : Option String) :
    (∀ s n, q = some s → jsParseInt s = some n → n ≠ 0 →
      selectUsageLogs store q = store.filter (fun log => log.user_id == n)) ∧
    (q = none → selectUsageLogs store q = store) ∧
    (∀ s, q = some s → (jsParseInt s = none ∨ jsParseInt s = some 0) →
      selectUsageLogs store q = store) := by
  refine ⟨?_, ?_, ?_⟩
  · intro s n hq hp hn
    subst hq
    have hs : s ≠ "" := by
      intro hemp
      subst hemp
      rw [show jsParseInt "" = none from by decide] at hp
      exact Option.noConfusion hp
    simp [selectUsageLogs, hs, hp, hn]
  · intro hq
    subst hq
    simp [selectUsageLogs]
  · intro s hq hcase
    subst hq
    by_cases hs : s = ""
    · subst hs
      simp [selectUsageLogs]
    · rcases hcase with hcase | hcase <;> simp [selectUsageLogs, hs, hcase]

/-- C8 witness: the theorem at the concrete store, filtering for user 1. -/
theorem getUsageLogs_filter_spec_witness :
    selectUsageLogs sampleUsageStore (some "1")
      = sampleUsageStore.filter (fun log => log.user_id == 1) :=
  (getUsageLogs_filter_spec sampleUsageStore (some "1")).1 "1" 1 rfl
    (by decide) (by decide)

/-- C10.  MLServiceClient.predict returns the resolved response body
unchanged and turns every rejected call into a thrown Error, never a partial
result; MLServiceClient.healthCheck is total and returns true exactly when
the health request resolves with status 200. -/
theorem predict_healthCheck_error_contract
    (out : AxiosOutcome RecommendationResult) (hout : AxiosOutcome Json) :
    (∀ s d, out = .ok s d → MLServiceClient.predict out = .ok d) ∧
    ((∀ s d, out ≠ .ok s d) → ∃ e, MLServiceClient.predict out = .error e) ∧
    (MLServiceClient.healthCheck hout = true ↔ ∃ d, hout = .ok 200 d) := by
  refine ⟨?_, ?_, ?_⟩
  · intro s d h
    subst h
    rfl
  · intro h
    cases out with
    | ok s d => exact absurd rfl (h s d)
    | axiosErr m st => exact ⟨_, rfl⟩
    | otherErr m => exact ⟨_, rfl⟩
  · cases hout with
    | ok s d => simp [MLServiceClient.healthCheck]
    | axiosErr m st => simp [MLServiceClient.healthCheck]
    | otherErr m => simp [MLServiceClient.healthCheck]

/-- C10 witness: predict forwards a concrete resolved body unchanged, and
healthCheck reports true on a resolved 200. -/
theorem predict_healthCheck_error_contract_witness :
    MLServiceClient.predict (.ok 200 sampleResult) = .ok sampleResult ∧
    MLServiceClient.healthCheck (.ok 200 .null) = true :=
  ⟨(predict_healthCheck_error_contract (.ok 200 sampleResult)
      (.ok 200 .null)).1 200 sampleResult rfl,
   (predict_healthCheck_error_contract (.ok 200 sampleResult)
      (.ok 200 .null)).2.2.mpr ⟨.null, rfl⟩⟩

theorem mapSet_fresh (m : List (Int × StoredProfile)) (k : Int)
    (v : StoredProfile) (h : k ∉ m.map Prod.fst) :
    mapSet m k v = m ++ [(k, v)] := by
  induction m with
  | nil => rfl
  | cons hd tl ih =>
    obtain ⟨k0, v0⟩ := hd
    simp only [List.map_cons, List.mem_cons, not_or] at h
    rw [mapSet, if_neg (fun hh => h.1 hh.symm), ih h.2, List.cons_append]

theorem createProfile_step (st : ProfileStore) (inc sp sf lb : Rat)
    (now : String) (hinv : ProfileStoreInv st) :
    ProfileStoreInv (createProfile st inc sp sf lb now).1 ∧
    (createProfile st inc sp sf lb now).2.created_at
      = (createProfile st inc sp sf lb now).2.updated_at ∧
    (createProfile st inc sp sf lb now).2.id = st.nextId ∧
    storeKeys (createProfile st inc sp sf lb now).1
      = storeKeys st ++ [st.nextId] ∧
    (storeKeys (createProfile st inc sp sf lb now).1).Nodup := by
  obtain ⟨h1, h2, h3⟩ := hinv
  have h2m : st.profiles.map Prod.fst
      = (List.range' 1 st.profiles.length).map Int.ofNat := h2
  have hfresh : st.nextId ∉ st.profiles.map Prod.fst := by
    rw [h2m]
    intro hmem
    rw [List.mem_map] at hmem
    obtain ⟨m, hm, hem⟩ := hmem
    rw [List.mem_range'_1] at hm
    rw [Int.ofNat_eq_natCast] at hem
    omega
  have hprof : (createProfile st inc sp sf lb now).1.profiles
      = st.profiles ++ [(st.nextId,
        { id := st.nextId, income := inc, spending_score := sp,
          saving_frequency := sf, loan_behavior := lb,
          created_at := now, updated_at := now })] := by
    simp [createProfile, mapSet_fresh _ _ _ hfresh]
  have hnext : (createProfile st inc sp sf lb now).1.nextId
      = st.nextId + 1 := rfl
  have hkeys : storeKeys (createProfile st inc sp sf lb now).1
      = storeKeys st ++ [st.nextId] := by
    rw [storeKeys, hprof, List.map_append]
    rfl
  have hlen : (createProfile st inc sp sf lb now).1.profiles.length
      = st.profiles.length + 1 := by
    rw [hprof, List.length_append]
    rfl
  have hkeys2 : storeKeys (createProfile st inc sp sf lb now).1
      = (List.range' 1 (st.profiles.length + 1)).map Int.ofNat := by
    rw [hkeys, List.range'_concat, List.map_append]
    rw [show storeKeys st = (List.range' 1 st.profiles.length).map Int.ofNat
      from h2]
    congr 1
    simp only [List.map_cons, List.map_nil]
    congr 1
    rw [Int.ofNat_eq_natCast]
    omega
  have hnodup : (storeKeys (createProfile st inc sp sf lb now).1).Nodup := by
    rw [hkeys2]
    refine List.Nodup.map (fun a b hab => Int.ofNat.inj hab) ?_
    exact List.nodup_range' _ _ _ (by norm_num)
  refine ⟨⟨?_, ?_, ?_⟩, rfl, rfl, hkeys, hnodup⟩
  · rw [hnext, hlen, h1]
    push_cast
    ring
  · rw [show (createProfile st inc sp sf lb now).1.profiles.length
      = st.profiles.length + 1 from hlen]
    exact hkeys2
  · intro p hp
    rw [hprof] at hp
    rcases List.mem_append.mp hp with h | h
    · exact h3 p h
    · rw [List.mem_singleton] at h
      subst h
      rfl

/-- C9.  The profile store starts empty with the counter at 1 and preserves
its invariant: ids are assigned strictly increasing from 1, one per
createProfile call, so every stored profile has a unique id; at creation
time created_at equals updated_at; and getProfile leaves the store
untouched. -/
theorem profile_store_invariants :
    ProfileStoreInv initialProfileStore ∧
    (∀ (st : ProfileStore) (inc sp sf lb : Rat) (now : String),
      ProfileStoreInv st →
      ProfileStoreInv (createProfile st inc sp sf lb now).1 ∧
      (createProfile st inc sp sf lb now).2.created_at
        = (createProfile st inc sp sf lb now).2.updated_at ∧
      (createProfile st inc sp sf lb now).2.id = st.nextId ∧
      storeKeys (createProfile st inc sp sf lb now).1
        = storeKeys st ++ [st.nextId] ∧
      (storeKeys (createProfile st inc sp sf lb now).1).Nodup) ∧
    (∀ (st : ProfileStore) (idParam : String),
      (getProfileHandler st idParam).1 = st) := by
  refine ⟨⟨by decide, rfl, ?_⟩, ?_, ?_⟩
  · intro p hp
    exact absurd hp (List.not_mem_nil p)
  · intro st inc sp sf lb now hinv
    exact createProfile_step st inc sp sf lb now hinv
  · intro st idParam
    unfold getProfileHandler
    split
    · rfl
    · split
      · rfl
      · rfl

/-- C9 witness: one create on the initial store preserves the invariant and
stamps equal creation and update times. -/
theorem profile_store_invariants_witness :
    ProfileStoreInv (createProfile initialProfileStore 1 2 3 4 "t").1 ∧
    (createProfile initialProfileStore 1 2 3 4 "t").2.created_at
      = (createProfile initialProfileStore 1 2 3 4 "t").2.updated_at :=
  ⟨(profile_store_invariants.2.1 initialProfileStore 1 2 3 4 "t"
      profile_store_invariants.1).1,
   (profile_store_invariants.2.1 initialProfileStore 1 2 3 4 "t"
      profile_store_invariants.1).2.1⟩
